import Mathlib

/-!
Verification of the ULS24 device-interface core (HID transport, session
lifecycle and binary response decoder) against its specification.

The embedding follows `src/TestCl/HidMgr.cpp`, `src/TestCl/hidapi.cpp` and
`src/TestCl/InterfaceWrapper.cpp`.  Byte buffers are modelled as total maps
`Nat → Nat` (each C `BYTE` array cell is one map entry); the operating
system behaviour for one overlapped read is an oracle value of type
`ReadIo`, and the outcomes of `hid_open_path` for the enumerated candidate
paths are given as a list paired with the path names.
-/

namespace ULS24

/-- Constant `TxNum` (`#define TxNum 64` in HidMgr.h). -/
def TxNum : Nat := 64

/-- Constant `RxNum` (`#define RxNum 64` in HidMgr.h). -/
def RxNum : Nat := 64

/-- Constant `HIDREPORTNUM` (`#define HIDREPORTNUM 64+1` in HidMgr.h): a HID report is 65 bytes. -/
def HIDREPORTNUM : Nat := 65

/-- Constant `GetCmd` (`#define GetCmd 0x02` in HidMgr.h). -/
def GetCmd : Nat := 0x02

/-- Constant `ReadCmd` (`#define ReadCmd 0x04` in HidMgr.h). -/
def ReadCmd : Nat := 0x04

/-- A byte buffer: index ↦ byte value. -/
abbrev Buf := Nat → Nat

/-- Store value `v` at index `i` of buffer `f` (a single C array assignment). -/
def updByte (f : Buf) (i v : Nat) : Buf := fun k => if k = i then v else f k

/-- The free-standing globals of HidMgr.cpp that the session reads and
writes: `DeviceHandle`, `MyDeviceDetected`, `g_DeviceDetected`,
`MyDevicePathName`, `chan_num`, `Continue_Flag`, the four byte buffers, and
a log of every handle passed to `hid_close` (to reason about which handles
were ever closed). -/
structure HidState where
  DeviceHandle : Option Nat
  MyDeviceDetected : Bool
  g_DeviceDetected : Bool
  MyDevicePathName : String
  chan_num : Nat
  Continue_Flag : Bool
  InputReport : Buf
  OutputReport : Buf
  RxData : Buf
  TxData : Buf
  closedLog : List Nat

/-- Function `CloseHandles()` in HidMgr.cpp: if `DeviceHandle != NULL`, call
`hid_close` on it and set it to `NULL`.  The closed handle is appended to
`closedLog`. -/
def CloseHandles (s : HidState) : HidState :=
  match s.DeviceHandle with
  | some h => { s with DeviceHandle := none, closedLog := s.closedLog ++ [h] }
  | none => s

/-- The protocol-decoder state: `chan_num` and `Continue_Flag`. -/
structure ProtocolState where
  chan_num : Nat
  Continue_Flag : Bool
deriving DecidableEq

/-- The `switch (rCmd)` block of `ReadHIDInputReport` (HidMgr.cpp lines
150–175), as a pure function of the received payload `rx` (the `RxData`
buffer) and the previous protocol state.  Returns the next protocol state
together with a flag that is `true` exactly when the C code took the early
`return` on the 0xf1 sentinel. -/
def decodeResponse (rx : Buf) (ps : ProtocolState) : ProtocolState × Bool :=
  let rCmd := rx 2
  let rType := rx 4
  if rCmd = GetCmd then
    if rType = 0x01 ∨ rType = 0x02 ∨ rType = 0x12 ∨ rType = 0x22 ∨
        rType = 0x32 ∨ rType = 0x03 then
      let ps1 : ProtocolState := { ps with chan_num := Nat.land rType 0xF0 / 16 + 1 }
      if rx 5 = 0x0b ∨ rx 5 = 0xf1 then
        let ps2 : ProtocolState := { ps1 with Continue_Flag := false }
        if rx 5 = 0xf1 then (ps2, true) else (ps2, false)
      else ({ ps1 with Continue_Flag := true }, false)
    else
      if rType = 0x07 ∨ rType = 0x08 ∨ rType = 0x0b then
        if rx 5 = 0x17 then ({ ps with Continue_Flag := false }, false)
        else ({ ps with Continue_Flag := true }, false)
      else (ps, false)
  else (ps, false)

/-- The copy loop of `ReadHIDInputReport` (HidMgr.cpp lines 143–145):
`RxData[k] = InputReport[k+1]` for `0 ≤ k < HIDREPORTNUM - 1`; cells at
index ≥ 64 keep their previous content. -/
def rxOfWire (wire oldRx : Buf) : Buf :=
  fun k => if k < HIDREPORTNUM - 1 then wire (k + 1) else oldRx k

/-- One operating-system outcome for the overlapped `ReadFile` issued by
`hid_read_timeout` (hidapi.cpp lines 316–367):
* `syncOk n bytes` — `ReadFile` returned `TRUE` immediately with
  `bytes_read = n`, the first `n` bytes of the caller buffer overwritten
  from `bytes`;
* `syncFail` — `ReadFile` failed with an error other than
  `ERROR_IO_PENDING`;
* `pendingDone n bytes` — the I/O went pending, `WaitForSingleObject`
  returned `WAIT_OBJECT_0`, `GetOverlappedResult` succeeded with
  `bytes_read = n`;
* `pendingDoneFail` — the wait was signalled but `GetOverlappedResult`
  failed;
* `pendingTimeout` — the wait returned `WAIT_TIMEOUT`;
* `pendingWaitError` — the wait itself failed. -/
inductive ReadIo where
  | syncOk (n : Nat) (bytes : Buf)
  | syncFail
  | pendingDone (n : Nat) (bytes : Buf)
  | pendingDoneFail
  | pendingTimeout
  | pendingWaitError

/-- What one call to `hid_read_timeout` did: the `int` it returned, whether
`CancelIo` ran before it returned, the timeout argument passed to
`WaitForSingleObject` if a wait happened (`some none` would model
`INFINITE`, `some (some t)` a bounded wait of `t` ms, `none` no wait at
all), and the caller buffer after the call. -/
structure ReadRet where
  result : Int
  cancelled : Bool
  waited : Option (Option Int)
  buf : Buf

/-- The timeout argument the C code hands to `WaitForSingleObject`:
`milliseconds >= 0 ? milliseconds : INFINITE` (hidapi.cpp line 340);
`none` models `INFINITE`. -/
def waitArgOf (ms : Int) : Option Int := if 0 ≤ ms then some ms else none

/-- A completed read of `n` bytes overwrites the first `n` bytes of the
caller buffer, leaving the rest as it was. -/
def copyIn (old bytes : Buf) (n : Nat) : Buf :=
  fun k => if k < n then bytes k else old k

/-- Function `hid_read_timeout` (hidapi.cpp lines 316–367).  `deviceValid` models the
two guards `!device` and `device_handle == INVALID_HANDLE_VALUE`, which both
return -1 before any I/O. -/
def hid_read_timeout (deviceValid : Bool) (buf : Buf) (ms : Int)
    (io : ReadIo) : ReadRet :=
  if deviceValid = false then ⟨-1, false, none, buf⟩
  else
    match io with
    | .syncOk n bytes => ⟨(n : Int), false, none, copyIn buf bytes n⟩
    | .syncFail => ⟨-1, false, none, buf⟩
    | .pendingDone n bytes =>
        ⟨(n : Int), false, some (waitArgOf ms), copyIn buf bytes n⟩
    | .pendingDoneFail => ⟨-1, false, some (waitArgOf ms), buf⟩
    | .pendingTimeout => ⟨0, true, some (waitArgOf ms), buf⟩
    | .pendingWaitError => ⟨-1, false, some (waitArgOf ms), buf⟩

/-- The timeout `ReadHIDInputReport` passes to `hid_read_timeout`
(HidMgr.cpp line 137). -/
def READ_TIMEOUT : Int := 264000

/-- Function `ReadHIDInputReport` (HidMgr.cpp lines 126–189).  Sets
`InputReport[0] = 0`; if a handle is open, calls `hid_read_timeout` with
`READ_TIMEOUT`; on `result > 0` copies the payload into `RxData` and runs
the decoder switch; on `result == 0` (timeout) or `result < 0` (error)
calls `CloseHandles` and clears `MyDeviceDetected`.  The second component
is `true` exactly when the early `return` inside the switch (the 0xf1
sentinel, line 161) was taken, skipping the trailing `DisplayInputReport`
stub. -/
def ReadHIDInputReport (s : HidState) (io : ReadIo) : HidState × Bool :=
  let s0 := { s with InputReport := updByte s.InputReport 0 0 }
  match s0.DeviceHandle with
  | none => (s0, false)
  | some _ =>
    let r := hid_read_timeout true s0.InputReport READ_TIMEOUT io
    let s1 := { s0 with InputReport := r.buf }
    if 0 < r.result then
      let rx := rxOfWire s1.InputReport s1.RxData
      let s2 := { s1 with RxData := rx }
      let dec := decodeResponse rx ⟨s2.chan_num, s2.Continue_Flag⟩
      ({ s2 with chan_num := dec.1.chan_num, Continue_Flag := dec.1.Continue_Flag },
        dec.2)
    else if r.result = 0 then
      (CloseHandles { s1 with MyDeviceDetected := false }, false)
    else
      (CloseHandles { s1 with MyDeviceDetected := false }, false)

/-- Function `WriteHIDOutputReport` (HidMgr.cpp lines 191–212).  Builds the outgoing
report: `OutputReport[0] = 0`, `OutputReport[i] = TxData[i-1]` for
`1 ≤ i < TxNum + 1`; if a handle is open, performs the write (whose returned
`int` is the oracle `wres`); on `wres < 0` calls `CloseHandles` and clears
`MyDeviceDetected`. -/
def WriteHIDOutputReport (s : HidState) (wres : Int) : HidState :=
  let out : Buf := fun k =>
    if k = 0 then 0 else if k < TxNum + 1 then s.TxData (k - 1) else s.OutputReport k
  let s0 := { s with OutputReport := out }
  match s0.DeviceHandle with
  | none => s0
  | some _ =>
    if wres < 0 then { CloseHandles s0 with MyDeviceDetected := false }
    else s0

/-- One enumerated candidate: its device path and what `hid_open_path`
returns for it (`none`: the open fails; `some h`: it opens to handle `h`). -/
abbrev Candidate := String × Option Nat

/-- The `while (cur_dev)` loop of `FindTheHID` (HidMgr.cpp lines 47–65).
Each iteration assigns `DeviceHandle = hid_open_path(cur_dev->path)`; on
success it sets `MyDeviceDetected`, records the path and breaks; on failure
it moves to the next candidate.  The second component lists the paths on
which `hid_open_path` was attempted, in order. -/
def findLoop (s : HidState) (devs : List Candidate) : HidState × List String :=
  match devs with
  | [] => (s, [])
  | (path, h) :: rest =>
    let s1 := { s with DeviceHandle := h }
    match h with
    | some _ =>
      ({ s1 with MyDeviceDetected := true, MyDevicePathName := path }, [path])
    | none =>
      let r := findLoop s1 rest
      (r.1, path :: r.2)

/-- Result of one `FindTheHID` call: the final globals, the list of paths on
which an open was attempted, and the `bool` the function returned. -/
structure FindOut where
  state : HidState
  attempted : List String
  ret : Bool

/-- Function `FindTheHID` (HidMgr.cpp lines 31–77): reset `MyDeviceDetected`, run the
open loop over the enumerated candidates, free the enumeration list (which
touches no device handle), and copy `MyDeviceDetected` into
`g_DeviceDetected`.  Note the function never calls `hid_close` or
`CloseHandles`. -/
def FindTheHID (s : HidState) (devs : List Candidate) : FindOut :=
  let s0 := { s with MyDeviceDetected := false }
  let r := findLoop s0 devs
  ⟨{ r.1 with g_DeviceDetected := r.1.MyDeviceDetected }, r.2,
    r.1.MyDeviceDetected⟩

/-- Function `ReadAndWriteToDevice` (HidMgr.cpp lines 106–124): if the device is not
detected, run discovery; if it is detected afterwards, write a report then
read a report.  The `Bool` component records whether `FindTheHID` was
invoked. -/
def ReadAndWriteToDevice (s : HidState) (devs : List Candidate) (wres : Int)
    (rio : ReadIo) : HidState × Bool :=
  let step :=
    if s.MyDeviceDetected = false then ((FindTheHID s devs).state, true)
    else (s, false)
  if step.1.MyDeviceDetected = true then
    ((ReadHIDInputReport (WriteHIDOutputReport step.1 wres) rio).1, step.2)
  else step

/-- Function `ULS24_Reset` (InterfaceWrapper.cpp lines 106–109): call `FindTheHID`
and return 1 on success, 0 on failure. -/
def ULS24_Reset (s : HidState) (devs : List Candidate) : HidState × Int :=
  let f := FindTheHID s devs
  (f.state, if f.ret then 1 else 0)

/-- The first candidate whose open succeeds, with its handle. -/
def firstHit : List Candidate → Option (String × Nat)
  | [] => none
  | (p, some h) :: _ => some (p, h)
  | (_, none) :: rest => firstHit rest

/-- The paths `FindTheHID` attempts: every failing candidate before the
first success, then the first succeeding path; all of them when none
succeeds. -/
def attemptedSpec : List Candidate → List String
  | [] => []
  | (p, some _) :: _ => [p]
  | (p, none) :: rest => p :: attemptedSpec rest

/-- Response-field extraction as the claim under review states it: the
three classified bytes sit at offsets 2, 4, 5 of the raw 65-byte wire
report (payload offsets 1, 3, 4).  Written from the words of the spec, to be
compared with the extraction the code performs. -/
def responseFieldsClaim (wire : Buf) : Nat × Nat × Nat :=
  (wire 2, wire 4, wire 5)

/-- Response-field extraction as the code performs it: `rCmd = RxData[2]`,
`rType = RxData[4]`, marker `RxData[5]`, where `RxData[k] = wire[k+1]`. -/
def responseFieldsCode (wire : Buf) : Nat × Nat × Nat :=
  (rxOfWire wire (fun _ => 0) 2, rxOfWire wire (fun _ => 0) 4,
    rxOfWire wire (fun _ => 0) 5)

/-! ### Helper lemmas about the decoder switch -/

lemma decode_channel (rx : Buf) (ps : ProtocolState) (h2 : rx 2 = GetCmd)
    (h4 : rx 4 = 0x01 ∨ rx 4 = 0x02 ∨ rx 4 = 0x12 ∨ rx 4 = 0x22 ∨
      rx 4 = 0x32 ∨ rx 4 = 0x03) :
    decodeResponse rx ps =
      if rx 5 = 0x0b ∨ rx 5 = 0xf1 then
        ((⟨Nat.land (rx 4) 0xF0 / 16 + 1, false⟩ : ProtocolState),
          if rx 5 = 0xf1 then true else false)
      else ((⟨Nat.land (rx 4) 0xF0 / 16 + 1, true⟩ : ProtocolState), false) := by
  simp only [decodeResponse]
  rw [if_pos h2, if_pos h4]
  split
  · split <;> rfl
  · rfl

lemma decode_status (rx : Buf) (ps : ProtocolState) (h2 : rx 2 = GetCmd)
    (h4 : rx 4 = 0x07 ∨ rx 4 = 0x08 ∨ rx 4 = 0x0b) :
    decodeResponse rx ps =
      if rx 5 = 0x17 then (({ ps with Continue_Flag := false } : ProtocolState), false)
      else (({ ps with Continue_Flag := true } : ProtocolState), false) := by
  have hnc : ¬(rx 4 = 0x01 ∨ rx 4 = 0x02 ∨ rx 4 = 0x12 ∨ rx 4 = 0x22 ∨
      rx 4 = 0x32 ∨ rx 4 = 0x03) := by
    rcases h4 with h | h | h <;> simp [h]
  simp only [decodeResponse]
  rw [if_pos h2, if_neg hnc, if_pos h4]

lemma decode_other (rx : Buf) (ps : ProtocolState) (h2 : rx 2 = GetCmd)
    (hnc : ¬(rx 4 = 0x01 ∨ rx 4 = 0x02 ∨ rx 4 = 0x12 ∨ rx 4 = 0x22 ∨
      rx 4 = 0x32 ∨ rx 4 = 0x03))
    (hns : ¬(rx 4 = 0x07 ∨ rx 4 = 0x08 ∨ rx 4 = 0x0b)) :
    decodeResponse rx ps = (ps, false) := by
  simp only [decodeResponse]
  rw [if_pos h2, if_neg hnc, if_neg hns]

lemma decode_nonget (rx : Buf) (ps : ProtocolState) (h2 : rx 2 ≠ GetCmd) :
    decodeResponse rx ps = (ps, false) := by
  simp only [decodeResponse]
  rw [if_neg h2]

/-- A received payload with the given command-echo byte (index 2),
response-type byte (index 4) and marker byte (index 5); all other cells 0. -/
def mkRx (cmd t m : Nat) : Buf :=
  fun k => if k = 2 then cmd else if k = 4 then t else if k = 5 then m else 0

/-! ### Claim theorems -/

/-- C1, counterexample: the claim places the three classified bytes at wire
offsets 2, 4, 5 (payload offsets 1, 3, 4), but on the wire report whose
byte at index `k` is `k` the code extracts `(3, 5, 6)` — it reads `RxData`
payload offsets 2, 4, 5, which are wire offsets 3, 5, 6 — so the claimed
extraction differs from the one the code performs. -/
theorem c1_counterexample :
    responseFieldsCode (fun k => k) = (3, 5, 6) ∧
    responseFieldsClaim (fun k => k) = (2, 4, 5) ∧
    responseFieldsCode (fun k => k) ≠ responseFieldsClaim (fun k => k) := by
  decide

/-- C1 (amended): for every received 65-byte report the decoder extracts
`command_echo` at payload byte index 2, `response_type` at payload index 4
and `marker_byte` at payload index 5 (wire offsets 3, 5, 6), and the
classification depends on exactly these three bytes. -/
theorem c1_field_offsets :
    (∀ wire oldRx : Buf,
      (rxOfWire wire oldRx 2, rxOfWire wire oldRx 4, rxOfWire wire oldRx 5) =
        (wire 3, wire 5, wire 6)) ∧
    (∀ wire : Buf, responseFieldsCode wire = (wire 3, wire 5, wire 6)) ∧
    (∀ (rx rxB : Buf) (ps : ProtocolState), rx 2 = rxB 2 → rx 4 = rxB 4 →
      rx 5 = rxB 5 → decodeResponse rx ps = decodeResponse rxB ps) := by
  refine ⟨?_, ?_, ?_⟩
  · intro wire oldRx
    simp [rxOfWire, HIDREPORTNUM]
  · intro wire
    simp [responseFieldsCode, rxOfWire, HIDREPORTNUM]
  · intro rx rxB ps h2 h4 h5
    simp only [decodeResponse, h2, h4, h5]

/-- Witness for C1: two reports agreeing at payload bytes 2, 4, 5 decode
identically. -/
theorem c1_field_offsets_witness :
    decodeResponse (fun k => k) ⟨1, false⟩ =
      decodeResponse (fun k => if k ≤ 6 then k else 99) ⟨1, false⟩ :=
  c1_field_offsets.2.2 (fun k => k) (fun k => if k ≤ 6 then k else 99)
    ⟨1, false⟩ (by decide) (by decide) (by decide)

/-- C2: for every Get-class response with a channel-style response type,
`chan_num` becomes `(response_type & 0xF0) / 16 + 1`, a value in 1..16
independent of the low nibble and of the marker byte; in particular
response type 0x22 with marker 0x05 yields channel 3 and continuation
true. -/
theorem c2_channel_number :
    (∀ (rx : Buf) (ps : ProtocolState), rx 2 = GetCmd →
      (rx 4 = 0x01 ∨ rx 4 = 0x02 ∨ rx 4 = 0x12 ∨ rx 4 = 0x22 ∨
        rx 4 = 0x32 ∨ rx 4 = 0x03) →
      ((decodeResponse rx ps).1.chan_num = Nat.land (rx 4) 0xF0 / 16 + 1 ∧
        1 ≤ (decodeResponse rx ps).1.chan_num ∧
        (decodeResponse rx ps).1.chan_num ≤ 16)) ∧
    (∀ (rx : Buf) (ps : ProtocolState), rx 2 = GetCmd → rx 4 = 0x22 →
      rx 5 = 0x05 → (decodeResponse rx ps).1 = ⟨3, true⟩) := by
  constructor
  · intro rx ps h2 h4
    have hc : (decodeResponse rx ps).1.chan_num = Nat.land (rx 4) 0xF0 / 16 + 1 := by
      rw [decode_channel rx ps h2 h4]
      split
      · split <;> rfl
      · rfl
    refine ⟨hc, ?_, ?_⟩ <;> rw [hc] <;>
      rcases h4 with h | h | h | h | h | h <;> rw [h] <;> decide
  · intro rx ps h2 h4 h5
    rw [decode_channel rx ps h2 (Or.inr (Or.inr (Or.inr (Or.inl h4)))),
      if_neg (by simp [h5]), h4]
    decide

/-- Witness for C2: command echo 0x02, response type 0x22, marker 0x05
gives channel 3 and continuation true. -/
theorem c2_channel_number_witness :
    (decodeResponse (mkRx 0x02 0x22 0x05) ⟨1, false⟩).1 = ⟨3, true⟩ :=
  c2_channel_number.2 (mkRx 0x02 0x22 0x05) ⟨1, false⟩ rfl rfl rfl

/-- C3: in the channel-style branch, marker 0x0b or 0xf1 clears the
continuation flag and any other marker sets it; marker 0xf1 additionally
takes the early return (second component `true`), producing exactly the
already-computed channel number and the cleared flag and nothing else,
while marker 0x0b does not take the early return. -/
theorem c3_sentinel :
    ∀ (rx : Buf) (ps : ProtocolState), rx 2 = GetCmd →
      (rx 4 = 0x01 ∨ rx 4 = 0x02 ∨ rx 4 = 0x12 ∨ rx 4 = 0x22 ∨
        rx 4 = 0x32 ∨ rx 4 = 0x03) →
      (((rx 5 = 0x0b ∨ rx 5 = 0xf1) →
          (decodeResponse rx ps).1.Continue_Flag = false) ∧
        (¬(rx 5 = 0x0b ∨ rx 5 = 0xf1) →
          (decodeResponse rx ps).1.Continue_Flag = true) ∧
        (rx 5 = 0xf1 →
          decodeResponse rx ps =
            ((⟨Nat.land (rx 4) 0xF0 / 16 + 1, false⟩ : ProtocolState), true)) ∧
        (rx 5 = 0x0b → (decodeResponse rx ps).2 = false)) := by
  intro rx ps h2 h4
  rw [decode_channel rx ps h2 h4]
  refine ⟨?_, ?_, ?_, ?_⟩
  · intro h5
    rw [if_pos h5]
  · intro h5
    rw [if_neg h5]
  · intro h5
    rw [if_pos (Or.inr h5), if_pos h5]
  · intro h5
    rw [if_pos (Or.inl h5), if_neg (by simp [h5])]

/-- Witness for C3: command echo 0x02, response type 0x22, marker 0xf1
returns early with channel 3 and continuation false. -/
theorem c3_sentinel_witness :
    decodeResponse (mkRx 0x02 0x22 0xf1) ⟨1, true⟩ = (⟨3, false⟩, true) :=
  ((c3_sentinel (mkRx 0x02 0x22 0xf1) ⟨1, true⟩ rfl (by decide)).2.2.1
    rfl).trans (by decide)

/-- C4: in the status-style branch (Get-class echo, response type 0x07,
0x08 or 0x0b), the continuation flag is cleared exactly when the marker is
0x17 and set otherwise, the channel number keeps its previous value, and no
early return is taken. -/
theorem c4_status_style :
    ∀ (rx : Buf) (ps : ProtocolState), rx 2 = GetCmd →
      (rx 4 = 0x07 ∨ rx 4 = 0x08 ∨ rx 4 = 0x0b) →
      ((decodeResponse rx ps).1.chan_num = ps.chan_num ∧
        (rx 5 = 0x17 → (decodeResponse rx ps).1.Continue_Flag = false) ∧
        (rx 5 ≠ 0x17 → (decodeResponse rx ps).1.Continue_Flag = true) ∧
        (decodeResponse rx ps).2 = false) := by
  intro rx ps h2 h4
  rw [decode_status rx ps h2 h4]
  refine ⟨?_, ?_, ?_, ?_⟩
  · split <;> rfl
  · intro h5
    rw [if_pos h5]
  · intro h5
    rw [if_neg h5]
  · split <;> rfl

/-- Witness for C4: command echo 0x02, response type 0x08, marker 0x17
clears the continuation flag and leaves the channel number (here 5)
unchanged. -/
theorem c4_status_style_witness :
    (decodeResponse (mkRx 0x02 0x08 0x17) ⟨5, true⟩).1.chan_num = 5 ∧
    (decodeResponse (mkRx 0x02 0x08 0x17) ⟨5, true⟩).1.Continue_Flag = false := by
  have h := c4_status_style (mkRx 0x02 0x08 0x17) ⟨5, true⟩ rfl (by decide)
  exact ⟨h.1, h.2.1 rfl⟩

/-- C5: a response whose command echo is not the Get-class code, or a
Get-class response whose type is in neither recognized set, leaves the
protocol state unchanged and takes no early return (and the decoder has no
error outcome to signal). -/
theorem c5_fallthrough :
    (∀ (rx : Buf) (ps : ProtocolState), rx 2 ≠ GetCmd →
      decodeResponse rx ps = (ps, false)) ∧
    (∀ (rx : Buf) (ps : ProtocolState), rx 2 = GetCmd →
      ¬(rx 4 = 0x01 ∨ rx 4 = 0x02 ∨ rx 4 = 0x12 ∨ rx 4 = 0x22 ∨
        rx 4 = 0x32 ∨ rx 4 = 0x03) →
      ¬(rx 4 = 0x07 ∨ rx 4 = 0x08 ∨ rx 4 = 0x0b) →
      decodeResponse rx ps = (ps, false)) :=
  ⟨decode_nonget, decode_other⟩

/-- Witness for C5: a non-Get echo (0x04) and an unrecognized Get-class
type (0x55) both leave the state untouched. -/
theorem c5_fallthrough_witness :
    decodeResponse (mkRx 0x04 0x22 0x05) ⟨2, true⟩ = (⟨2, true⟩, false) ∧
    decodeResponse (mkRx 0x02 0x55 0x05) ⟨2, true⟩ = (⟨2, true⟩, false) :=
  ⟨c5_fallthrough.1 (mkRx 0x04 0x22 0x05) ⟨2, true⟩ (by decide),
    c5_fallthrough.2 (mkRx 0x02 0x55 0x05) ⟨2, true⟩ rfl (by decide) (by decide)⟩

/-- The all-zero byte buffer. -/
def zeroBuf : Buf := fun _ => 0

/-- A connected session state: handle 1 open, device detected. -/
def sConn : HidState :=
  ⟨some 1, true, true, "devpath", 1, false, zeroBuf, zeroBuf, zeroBuf, zeroBuf, []⟩

/-- A disconnected session state: no handle, device not detected. -/
def sDisc : HidState :=
  ⟨none, false, false, "", 1, false, zeroBuf, zeroBuf, zeroBuf, zeroBuf, []⟩

/-- C6: a failed write (`hid_write` returned a negative count), a read
timeout or a read error each set `DeviceHandle` to null via `CloseHandles`
and clear `MyDeviceDetected` before returning, and a subsequent
`ReadAndWriteToDevice` on a not-detected session re-invokes discovery
(`FindTheHID`) rather than reusing a handle. -/
theorem c6_failure_closes :
    (∀ (s : HidState) (wres : Int) (h : Nat), s.DeviceHandle = some h →
      wres < 0 →
      ((WriteHIDOutputReport s wres).DeviceHandle = none ∧
        (WriteHIDOutputReport s wres).MyDeviceDetected = false)) ∧
    (∀ (s : HidState) (io : ReadIo) (h : Nat), s.DeviceHandle = some h →
      (hid_read_timeout true (updByte s.InputReport 0 0) READ_TIMEOUT io).result ≤ 0 →
      ((ReadHIDInputReport s io).1.DeviceHandle = none ∧
        (ReadHIDInputReport s io).1.MyDeviceDetected = false)) ∧
    (∀ (s : HidState) (devs : List Candidate) (wres : Int) (rio : ReadIo),
      s.MyDeviceDetected = false →
      (ReadAndWriteToDevice s devs wres rio).2 = true) := by
  refine ⟨?_, ?_, ?_⟩
  · intro s wres h hh hw
    obtain ⟨dh, md, gd, pn, cn, cf, ir, orp, rxd, txd, cl⟩ := s
    simp only [HidState.DeviceHandle] at hh
    subst hh
    simp [WriteHIDOutputReport, CloseHandles, if_pos hw]
  · intro s io h hh hr
    obtain ⟨dh, md, gd, pn, cn, cf, ir, orp, rxd, txd, cl⟩ := s
    simp only [HidState.DeviceHandle] at hh
    subst hh
    simp only [HidState.InputReport] at hr
    simp only [ReadHIDInputReport]
    rw [if_neg (by omega)]
    by_cases h0 :
        (hid_read_timeout true (updByte ir 0 0) READ_TIMEOUT io).result = 0
    · rw [if_pos h0]
      simp [CloseHandles]
    · rw [if_neg h0]
      simp [CloseHandles]
  · intro s devs wres rio hd
    simp only [ReadAndWriteToDevice, hd, if_true]
    split <;> rfl

/-- Witness for C6: on the concrete connected state, a failed write and a
timed-out read each null the handle and clear the detected flag, and the
next exchange on a not-detected state invokes discovery. -/
theorem c6_failure_closes_witness :
    (WriteHIDOutputReport sConn (-1)).DeviceHandle = none ∧
    (WriteHIDOutputReport sConn (-1)).MyDeviceDetected = false ∧
    (ReadHIDInputReport sConn .pendingTimeout).1.DeviceHandle = none ∧
    (ReadHIDInputReport sConn .pendingTimeout).1.MyDeviceDetected = false ∧
    (ReadAndWriteToDevice sDisc [] 0 .syncFail).2 = true := by
  have hw := c6_failure_closes.1 sConn (-1) 1 rfl (by decide)
  have hr := c6_failure_closes.2.1 sConn .pendingTimeout 1 rfl (by decide)
  have hf := c6_failure_closes.2.2 sDisc [] 0 .syncFail rfl
  exact ⟨hw.1, hw.2, hr.1, hr.2, hf⟩

/-- C7: the read of the session uses a 264000 ms deadline (every wait the
transport performs under `READ_TIMEOUT` is bounded by exactly 264000 ms),
and `hid_read_timeout` has three outcomes: the byte count when data
arrived, 0 with the pending I/O cancelled when the deadline elapsed, and
-1 on outright failure. -/
theorem c7_read_timeout :
    READ_TIMEOUT = 264000 ∧
    (∀ (buf : Buf) (io : ReadIo),
      (hid_read_timeout true buf READ_TIMEOUT io).waited = none ∨
      (hid_read_timeout true buf READ_TIMEOUT io).waited = some (some 264000)) ∧
    (∀ buf : Buf,
      (hid_read_timeout true buf READ_TIMEOUT .pendingTimeout).result = 0 ∧
      (hid_read_timeout true buf READ_TIMEOUT .pendingTimeout).cancelled = true) ∧
    (∀ (buf bytes : Buf) (n : Nat),
      (hid_read_timeout true buf READ_TIMEOUT (.syncOk n bytes)).result = (n : Int) ∧
      (hid_read_timeout true buf READ_TIMEOUT (.syncOk n bytes)).cancelled = false ∧
      (hid_read_timeout true buf READ_TIMEOUT (.pendingDone n bytes)).result = (n : Int) ∧
      (hid_read_timeout true buf READ_TIMEOUT (.pendingDone n bytes)).cancelled = false) ∧
    (∀ buf : Buf,
      (hid_read_timeout true buf READ_TIMEOUT .syncFail).result = -1 ∧
      (hid_read_timeout true buf READ_TIMEOUT .pendingDoneFail).result = -1 ∧
      (hid_read_timeout true buf READ_TIMEOUT .pendingWaitError).result = -1) := by
  refine ⟨rfl, ?_, ?_, ?_, ?_⟩
  · intro buf io
    cases io <;> simp [hid_read_timeout, waitArgOf, READ_TIMEOUT]
  · intro buf
    exact ⟨rfl, rfl⟩
  · intro buf bytes n
    exact ⟨rfl, rfl, rfl, rfl⟩
  · intro buf
    exact ⟨rfl, rfl, rfl⟩

/-- C10: with no open handle, both the write and the read operation leave
`chan_num`, `Continue_Flag`, the `RxData` receive buffer, the
`MyDeviceDetected` flag and the (null) handle unchanged. -/
theorem c10_null_handle_noop :
    ∀ (s : HidState) (wres : Int) (io : ReadIo), s.DeviceHandle = none →
      ((WriteHIDOutputReport s wres).chan_num = s.chan_num ∧
        (WriteHIDOutputReport s wres).Continue_Flag = s.Continue_Flag ∧
        (WriteHIDOutputReport s wres).RxData = s.RxData ∧
        (WriteHIDOutputReport s wres).MyDeviceDetected = s.MyDeviceDetected ∧
        (WriteHIDOutputReport s wres).DeviceHandle = none ∧
        (ReadHIDInputReport s io).1.chan_num = s.chan_num ∧
        (ReadHIDInputReport s io).1.Continue_Flag = s.Continue_Flag ∧
        (ReadHIDInputReport s io).1.RxData = s.RxData ∧
        (ReadHIDInputReport s io).1.MyDeviceDetected = s.MyDeviceDetected ∧
        (ReadHIDInputReport s io).1.DeviceHandle = none) := by
  intro s wres io hd
  obtain ⟨dh, md, gd, pn, cn, cf, ir, orp, rxd, txd, cl⟩ := s
  simp only [HidState.DeviceHandle] at hd
  subst hd
  exact ⟨rfl, rfl, rfl, rfl, rfl, rfl, rfl, rfl, rfl, rfl⟩

/-- Witness for C10: on the concrete disconnected state, a write attempt
and a read attempt change none of the listed components. -/
theorem c10_null_handle_noop_witness :
    (WriteHIDOutputReport sDisc 0).chan_num = sDisc.chan_num ∧
    (ReadHIDInputReport sDisc .syncFail).1.MyDeviceDetected = sDisc.MyDeviceDetected ∧
    (ReadHIDInputReport sDisc .syncFail).1.RxData = sDisc.RxData := by
  have h := c10_null_handle_noop sDisc 0 .syncFail rfl
  exact ⟨h.1, h.2.2.2.2.2.2.2.2.1, h.2.2.2.2.2.2.2.1⟩

lemma write_OutputReport (s : HidState) (wres : Int) (j : Nat) :
    (WriteHIDOutputReport s wres).OutputReport j =
      if j = 0 then 0 else if j < TxNum + 1 then s.TxData (j - 1)
      else s.OutputReport j := by
  obtain ⟨dh, md, gd, pn, cn, cf, ir, orp, rxd, txd, cl⟩ := s
  cases dh with
  | none => rfl
  | some k =>
    by_cases hw : wres < 0
    · simp only [WriteHIDOutputReport, CloseHandles, if_pos hw]
    · simp only [WriteHIDOutputReport, if_neg hw]

/-- A connected state whose `InputReport` buffer still holds stale bytes
0x22 at index 5 and 0x05 at index 6 from an earlier transfer. -/
def s9stale : HidState :=
  ⟨some 1, true, true, "devpath", 1, false,
    (fun k => if k = 5 then 0x22 else if k = 6 then 0x05 else 0),
    zeroBuf, zeroBuf, zeroBuf, []⟩

/-- A read that completes synchronously with only 5 of the 65 report bytes,
delivering the Get command echo at buffer index 3. -/
def io9short : ReadIo := .syncOk 5 (fun k => if k = 3 then 0x02 else 0)

/-- C9, counterexample: the claim requires decoding to fail for every
received input whose length is not exactly 65 bytes, a short read being an
error and never partial success.  Here the transport delivers only 5 bytes
(`result = 5`), yet `ReadHIDInputReport` treats it as a successful report:
the handle stays open, the device stays detected, and the decoder runs on
the 5 fresh bytes mixed with stale buffer content, setting channel 3 and
continuation true. -/
theorem c9_counterexample :
    (hid_read_timeout true (updByte s9stale.InputReport 0 0) READ_TIMEOUT
        io9short).result = 5 ∧
    (ReadHIDInputReport s9stale io9short).1.DeviceHandle = some 1 ∧
    (ReadHIDInputReport s9stale io9short).1.MyDeviceDetected = true ∧
    (ReadHIDInputReport s9stale io9short).1.chan_num = 3 ∧
    (ReadHIDInputReport s9stale io9short).1.Continue_Flag = true := by
  decide

/-- C9 (amended): the code performs no length validation and has no
InvalidArgument or MalformedReport outcome.  The outgoing report is fixed
at 65 bytes by construction — byte 0 is the report identifier 0 and bytes
1..64 are copied verbatim from the fixed 64-byte `TxData` buffer — so no
invalid payload length can arise; and the read path treats every positive
byte count, even one below 65, as a successful report: the handle and the
detected flag are kept and the payload is copied to `RxData` and decoded. -/
theorem c9_no_length_validation :
    (∀ (s : HidState) (wres : Int),
      (WriteHIDOutputReport s wres).OutputReport 0 = 0 ∧
      ∀ i : Nat, 1 ≤ i → i ≤ 64 →
        (WriteHIDOutputReport s wres).OutputReport i = s.TxData (i - 1)) ∧
    (∀ (s : HidState) (io : ReadIo) (h : Nat), s.DeviceHandle = some h →
      0 < (hid_read_timeout true (updByte s.InputReport 0 0) READ_TIMEOUT
        io).result →
      ((ReadHIDInputReport s io).1.DeviceHandle = some h ∧
        (ReadHIDInputReport s io).1.MyDeviceDetected = s.MyDeviceDetected ∧
        (ReadHIDInputReport s io).1.RxData =
          rxOfWire
            (hid_read_timeout true (updByte s.InputReport 0 0) READ_TIMEOUT
              io).buf s.RxData)) := by
  constructor
  · intro s wres
    constructor
    · rw [write_OutputReport]
      rfl
    · intro i h1 h64
      rw [write_OutputReport, if_neg (by omega),
        if_pos (by simp only [TxNum]; omega)]
  · intro s io h hh hr
    obtain ⟨dh, md, gd, pn, cn, cf, ir, orp, rxd, txd, cl⟩ := s
    simp only [HidState.DeviceHandle] at hh
    subst hh
    simp only [HidState.InputReport] at hr
    simp only [ReadHIDInputReport]
    rw [if_pos hr]
    exact ⟨rfl, rfl, rfl⟩

/-- Witness for C9: a full 65-byte completed read on the connected state
keeps the handle, and the built output report has identifier 0 and copies
`TxData` into its payload. -/
theorem c9_no_length_validation_witness :
    (WriteHIDOutputReport sConn 65).OutputReport 0 = 0 ∧
    (WriteHIDOutputReport sConn 65).OutputReport 10 = sConn.TxData 9 ∧
    (ReadHIDInputReport sConn (.pendingDone 65 zeroBuf)).1.DeviceHandle = some 1 := by
  have hw := c9_no_length_validation.1 sConn 65
  have hr := c9_no_length_validation.2 sConn (.pendingDone 65 zeroBuf) 1 rfl
    (by decide)
  exact ⟨hw.1, hw.2 10 (by decide) (by decide), hr.1⟩

/-! ### Helper lemmas about the discovery loop -/

lemma findLoop_attempted (devs : List Candidate) (s : HidState) :
    (findLoop s devs).2 = attemptedSpec devs := by
  induction devs generalizing s with
  | nil => rfl
  | cons d rest ih =>
    obtain ⟨p, h⟩ := d
    cases h with
    | some k => rfl
    | none => simp [findLoop, attemptedSpec, ih]

lemma findLoop_closedLog (devs : List Candidate) (s : HidState) :
    (findLoop s devs).1.closedLog = s.closedLog := by
  induction devs generalizing s with
  | nil => rfl
  | cons d rest ih =>
    obtain ⟨p, h⟩ := d
    cases h with
    | some k => rfl
    | none => exact ih { s with DeviceHandle := none }

lemma findLoop_hit (devs : List Candidate) (s : HidState) (p : String)
    (hnd : Nat) (hh : firstHit devs = some (p, hnd)) :
    (findLoop s devs).1.DeviceHandle = some hnd ∧
    (findLoop s devs).1.MyDeviceDetected = true ∧
    (findLoop s devs).1.MyDevicePathName = p := by
  induction devs generalizing s with
  | nil => exact absurd hh (by simp [firstHit])
  | cons d rest ih =>
    obtain ⟨q, h⟩ := d
    cases h with
    | some k =>
      simp only [firstHit, Option.some_inj, Prod.mk.injEq] at hh
      exact ⟨by simp [findLoop, hh.2], rfl, by simp [findLoop, hh.1]⟩
    | none =>
      simp only [firstHit] at hh
      exact ih { s with DeviceHandle := none } hh

lemma findLoop_miss (devs : List Candidate) (s : HidState)
    (hh : firstHit devs = none) :
    (findLoop s devs).1.MyDeviceDetected = s.MyDeviceDetected := by
  induction devs generalizing s with
  | nil => rfl
  | cons d rest ih =>
    obtain ⟨q, h⟩ := d
    cases h with
    | some k => exact absurd hh (by simp [firstHit])
    | none =>
      simp only [firstHit] at hh
      exact ih { s with DeviceHandle := none } hh

lemma attemptedSpec_hit (devs : List Candidate) (p : String) (hnd : Nat)
    (hh : firstHit devs = some (p, hnd)) :
    attemptedSpec devs =
      (devs.takeWhile fun d => d.2.isNone).map Prod.fst ++ [p] := by
  induction devs with
  | nil => exact absurd hh (by simp [firstHit])
  | cons d rest ih =>
    obtain ⟨q, h⟩ := d
    cases h with
    | some k =>
      simp only [firstHit, Option.some_inj, Prod.mk.injEq] at hh
      simp [attemptedSpec, List.takeWhile, hh.1]
    | none =>
      simp only [firstHit] at hh
      simp [attemptedSpec, List.takeWhile, ih hh]

/-- A connected session that still holds live handle 7, about to be reset. -/
def s8pre : HidState :=
  ⟨some 7, true, true, "old", 1, false, zeroBuf, zeroBuf, zeroBuf, zeroBuf, []⟩

/-- C8, counterexample: the claim requires every new discovery to close any
prior live handle before adopting a new one.  Invoking `ULS24_Reset` (which
calls `FindTheHID`) on a connected session holding handle 7, with one
candidate that opens as handle 8, adopts handle 8 while closing nothing:
the close log stays empty, so handle 7 is never closed. -/
theorem c8_counterexample :
    s8pre.DeviceHandle = some 7 ∧
    (ULS24_Reset s8pre [("pathA", some 8)]).1.DeviceHandle = some 8 ∧
    (ULS24_Reset s8pre [("pathA", some 8)]).1.closedLog = [] ∧
    (ULS24_Reset s8pre [("pathA", some 8)]).2 = 1 := by
  refine ⟨rfl, rfl, rfl, rfl⟩

/-- C8 (amended): discovery attempts each enumerated candidate path in
order and adopts the first handle that opens, attempting no further
candidates after a success; if no candidate opens, the session ends not
detected and discovery returns false.  Discovery itself never closes a
handle: a prior live handle is overwritten, not closed (the close log is
untouched). -/
theorem c8_discovery_amended :
    (∀ (s : HidState) (devs : List Candidate) (p : String) (hnd : Nat),
      firstHit devs = some (p, hnd) →
      ((FindTheHID s devs).state.DeviceHandle = some hnd ∧
        (FindTheHID s devs).state.MyDeviceDetected = true ∧
        (FindTheHID s devs).state.MyDevicePathName = p ∧
        (FindTheHID s devs).ret = true ∧
        (FindTheHID s devs).attempted =
          (devs.takeWhile fun d => d.2.isNone).map Prod.fst ++ [p])) ∧
    (∀ (s : HidState) (devs : List Candidate), firstHit devs = none →
      ((FindTheHID s devs).ret = false ∧
        (FindTheHID s devs).state.MyDeviceDetected = false ∧
        (FindTheHID s devs).attempted = attemptedSpec devs)) ∧
    (∀ (s : HidState) (devs : List Candidate),
      (FindTheHID s devs).state.closedLog = s.closedLog) := by
  refine ⟨?_, ?_, ?_⟩
  · intro s devs p hnd hh
    have hl := findLoop_hit devs { s with MyDeviceDetected := false } p hnd hh
    refine ⟨hl.1, hl.2.1, hl.2.2, hl.2.1, ?_⟩
    rw [show (FindTheHID s devs).attempted =
      (findLoop { s with MyDeviceDetected := false } devs).2 from rfl]
    rw [findLoop_attempted, attemptedSpec_hit devs p hnd hh]
  · intro s devs hh
    have hm := findLoop_miss devs { s with MyDeviceDetected := false } hh
    exact ⟨hm, hm, findLoop_attempted devs { s with MyDeviceDetected := false }⟩
  · intro s devs
    exact findLoop_closedLog devs { s with MyDeviceDetected := false }

/-- Witness for C8: with candidates a (fails), b (opens as 3), c (never
tried), discovery adopts handle 3 and attempts only a and b; with a single
failing candidate, discovery reports failure. -/
theorem c8_discovery_amended_witness :
    (FindTheHID sDisc [("a", none), ("b", some 3), ("c", some 4)]).state.DeviceHandle
        = some 3 ∧
    (FindTheHID sDisc [("a", none), ("b", some 3), ("c", some 4)]).attempted
        = ["a", "b"] ∧
    (FindTheHID sDisc [("a", none)]).ret = false := by
  have h1 := c8_discovery_amended.1 sDisc
    [("a", none), ("b", some 3), ("c", some 4)] "b" 3 rfl
  have h2 := c8_discovery_amended.2.1 sDisc [("a", none)] rfl
  refine ⟨h1.1, ?_, h2.1⟩
  rw [h1.2.2.2.2]
  rfl
